import Mathlib

/-!
Verification of the 3DGS COLMAP -> Brush pipeline script
(src/3dgs-colmap-brush.py) against its design document.

The script is a linear orchestrator: it validates paths, builds argument
lists for five external invocations (four COLMAP subcommands and a Brush
train/export run), checks filesystem preconditions between stages, and
propagates exit codes.  We embed it shallowly:

* `Args` is the result of argument parsing (`main`, lines 59-94): every
  CLI flag after `argparse` has resolved defaults.  `type=int` flags are
  modelled as `Int` (argparse accepts negatives), `type=Path` flags as
  the string form of the path, optional paths as `Option String` (their
  argparse default is `None`; any supplied `Path` value is truthy).
  `cubecl_default_device` is a string whose Python truthiness test is
  modelled as non-emptiness.

* `World` is the environment the run observes: which directories exist,
  the entries of the optional mask directories, the outcome of each of
  the five subprocess invocations, and the filesystem state consulted by
  the inter-stage checks.  Each invocation's outcome is either
  `RunResult.exited c` (the child ran and returned exit code `c`) or
  `RunResult.notFound` (`subprocess.run` raised `FileNotFoundError`).

* The run itself is `pipeline : Args → World → List Event × Int`: the
  ordered trace of externally visible actions (process invocations,
  directory creations, mask-file copies) together with the process exit
  status, where completion of `main` is status 0 and `sys.exit(n)` is
  status `n`.  Logging calls are not modelled.  Machine-level masking of
  exit statuses (e.g. negative codes passed to `sys.exit`) is out of
  scope: the model reports the value handed to `sys.exit`.
-/

/-- Entry of a directory listing, as seen by `Path.iterdir` / `Path.glob`:
its final-component name and whether it is a regular file
(`Path.is_file`). -/
structure EntryInfo where
  name : String
  isFile : Bool
deriving DecidableEq, Repr

/-- Outcome of one `subprocess.run` call inside `run_command`
(lines 35-51): the child exited with a code, or the executable was
missing and `FileNotFoundError` was raised. -/
inductive RunResult where
  | exited (code : Int)
  | notFound
deriving DecidableEq, Repr

/-- Externally visible actions of the script, in program order:
`run cmd env` is a subprocess invocation attempt with argument list
`cmd` (each element already passed through `str`) and, for the Brush
call, the optional `CUBECL_DEFAULT_DEVICE` override carried by its
environment; `mkdir p parents existOk` is `Path.mkdir` with those
keyword flags; `copyMask n` is `shutil.copy2` of the mask file named
`n` into the dense mask folder (it keeps its original name). -/
inductive Event where
  | run (cmd : List String) (env : Option String)
  | mkdir (path : String) (parents : Bool) (existOk : Bool)
  | copyMask (srcName : String)
deriving DecidableEq, Repr

/-- Parsed CLI arguments (lines 59-94), after argparse has filled in the
defaults from `config`. -/
structure Args where
  project_dir : String
  images_dir : String
  colmap_bin : String
  brush_bin : String
  masks_dir : Option String
  mask_ext : String
  dense_masks_dir : Option String
  sfm_max_image_size : Int
  sift_max_num_features : Int
  undistort_max_image_size : Int
  camera_model : String
  single_camera : Int
  min_num_matches : Int
  refine_focal_length : Int
  refine_extra_params : Int
  refine_principal_point : Int
  run_brush : Int
  brush_total_steps : Int
  brush_max_splats : Int
  brush_export_every : Int
  brush_eval_split_every : Int
  brush_export_name : String
  cubecl_default_device : String
deriving DecidableEq, Repr

/-- Environment a run observes: existence of the directories the script
tests, listings of the two optional mask directories, the outcome of
each subprocess invocation (in stage order), and the filesystem facts
consulted by the inter-stage checks.  `brushFound` is the combined
`shutil.which(brush_bin) or Path(brush_bin).exists()` test of
line 244. -/
structure World where
  imagesDirExists : Bool
  masksDirExists : Bool
  masksEntries : List EntryInfo
  denseMasksDirExists : Bool
  denseMasksEntries : List EntryInfo
  featureResult : RunResult
  matchResult : RunResult
  mapperResult : RunResult
  undistortResult : RunResult
  brushResult : RunResult
  sparse0Exists : Bool
  denseImagesExists : Bool
  denseSparseExists : Bool
  brushFound : Bool
deriving DecidableEq, Repr

/-- POSIX path join, modelling `str(Path(p) / c)`. -/
def pjoin (p c : String) : String := p ++ "/" ++ c

/-- Python `PurePath.suffix` of a final path component: the substring
from the last dot on, provided that dot is neither the first nor the
last character; otherwise the empty string. -/
def pysuffix (name : String) : String :=
  let cs := name.data
  let n := cs.length
  let i? := ((List.range n).filter (fun i => cs.getD i ' ' = '.')).getLast?
  match i? with
  | some i => if 0 < i ∧ i < n - 1 then ⟨cs.drop i⟩ else ""
  | none => ""

/-- ASCII lowercasing of a string, character by character: models
Python `str.lower()` on the ASCII extensions and suffixes compared
here. -/
def lowerStr (s : String) : String := ⟨s.data.map Char.toLower⟩

/-- Membership test of `pathlib.Path.glob` with pattern `"*." + ext`
(line 222), for an `ext` free of glob metacharacters: on POSIX the
pattern is compiled case-sensitively by fnmatch, `*` matches any
(possibly empty) name part, and directories match just like files.  So
a directory entry matches exactly when its name ends in `"." ++ ext`. -/
def globMatch (name ext : String) : Bool :=
  ("." ++ ext).data.isSuffixOf name.data

/-- Predicate of the COLMAP mask count (lines 128-129): the entry is a
regular file and its `suffix.lower()` equals `("." + mask_ext).lower()`
(case-insensitive on both sides). -/
def colmapMaskMatch (e : EntryInfo) (ext : String) : Bool :=
  e.isFile && (lowerStr (pysuffix e.name) == lowerStr ("." ++ ext))

/-- `count_images` (lines 53-56): number of regular files in a listing
whose lowercased suffix is a common image extension.  Its value feeds
only a log message, so `pipeline` does not consult it. -/
def count_images (entries : List EntryInfo) : Nat :=
  (entries.filter (fun e =>
    e.isFile &&
      [".jpg", ".jpeg", ".png", ".tif", ".tiff"].contains
        (lowerStr (pysuffix e.name)))).length

/-- Number of mask files found in the configured masks directory
(lines 128-129). -/
def mask_count (a : Args) (w : World) : Nat :=
  (w.masksEntries.filter (fun e => colmapMaskMatch e a.mask_ext)).length

/-- `colmap_mask_args` (lines 123-139): the extra feature-extractor
arguments, `["--ImageReader.mask_path", masks_dir]` exactly when a
masks directory is configured, exists, and holds at least one matching
mask file; `[]` otherwise. -/
def colmap_mask_args (a : Args) (w : World) : List String :=
  match a.masks_dir with
  | none => []
  | some d =>
    if w.masksDirExists then
      if 0 < mask_count a w then ["--ImageReader.mask_path", d] else []
    else []

/-- Path of `db_path` (line 108). -/
def db_path (a : Args) : String := pjoin a.project_dir "database.db"

/-- Path of `sparse_dir` (line 109). -/
def sparse_dir (a : Args) : String := pjoin a.project_dir "sparse"

/-- Path of `dense_dir` (line 110). -/
def dense_dir (a : Args) : String := pjoin a.project_dir "dense"

/-- Path of `brush_export_dir` (line 115). -/
def brush_export_dir (a : Args) : String := pjoin a.project_dir "brush_exports"

/-- Path of `brush_data_path = dense_dir / "0"` (line 206). -/
def brush_data_path (a : Args) : String := pjoin (dense_dir a) "0"

/-- Path of `brush_masks_path = dense_dir / "0" / "masks"` (line 209). -/
def brush_masks_path (a : Args) : String := pjoin (brush_data_path a) "masks"

/-- Fixed part of `cmd_feature` (lines 146-155), before the optional
mask arguments are appended. -/
def cmd_feature_base (a : Args) : List String :=
  [a.colmap_bin, "feature_extractor",
   "--database_path", db_path a,
   "--image_path", a.images_dir,
   "--ImageReader.single_camera", toString a.single_camera,
   "--ImageReader.camera_model", a.camera_model,
   "--SiftExtraction.use_gpu", "1",
   "--SiftExtraction.max_image_size", toString a.sfm_max_image_size,
   "--SiftExtraction.max_num_features", toString a.sift_max_num_features]

/-- `cmd_feature` (lines 146-156): base arguments plus
`colmap_mask_args`. -/
def cmd_feature (a : Args) (w : World) : List String :=
  cmd_feature_base a ++ colmap_mask_args a w

/-- `cmd_match` (lines 163-167). -/
def cmd_match (a : Args) : List String :=
  [a.colmap_bin, "exhaustive_matcher",
   "--database_path", db_path a,
   "--SiftMatching.use_gpu", "1"]

/-- `cmd_mapper` (lines 174-183). -/
def cmd_mapper (a : Args) : List String :=
  [a.colmap_bin, "mapper",
   "--database_path", db_path a,
   "--image_path", a.images_dir,
   "--output_path", sparse_dir a,
   "--Mapper.min_num_matches", toString a.min_num_matches,
   "--Mapper.ba_refine_focal_length", toString a.refine_focal_length,
   "--Mapper.ba_refine_extra_params", toString a.refine_extra_params,
   "--Mapper.ba_refine_principal_point", toString a.refine_principal_point]

/-- `cmd_undistort` (lines 195-202). -/
def cmd_undistort (a : Args) : List String :=
  [a.colmap_bin, "image_undistorter",
   "--image_path", a.images_dir,
   "--input_path", pjoin (sparse_dir a) "0",
   "--output_path", dense_dir a,
   "--output_type", "COLMAP",
   "--max_image_size", toString a.undistort_max_image_size]

/-- `cmd_brush` (lines 257-268).  `brush_max_resolution` is the derived
variable of line 97, equal to `undistort_max_image_size`. -/
def cmd_brush (a : Args) : List String :=
  [a.brush_bin, brush_data_path a,
   "--total-steps", toString a.brush_total_steps,
   "--max-resolution", toString a.undistort_max_image_size,
   "--max-splats", toString a.brush_max_splats,
   "--eval-split-every", toString a.brush_eval_split_every,
   "--export-every", toString a.brush_export_every,
   "--export-path", brush_export_dir a,
   "--export-name", a.brush_export_name,
   "--eval-every", toString a.brush_export_every,
   "--eval-save-to-disk"]

/-- Optional `CUBECL_DEFAULT_DEVICE` override placed in the Brush
child's environment (lines 250-253): set exactly when the flag value is
truthy, i.e. a non-empty string. -/
def brushEnv (a : Args) : Option String :=
  if a.cubecl_default_device = "" then none else some a.cubecl_default_device

/-- Directory-creation calls of the setup phase (lines 106-113):
`project_dir.mkdir(parents=True, exist_ok=True)` then
`sparse_dir.mkdir(exist_ok=True)` and `dense_dir.mkdir(exist_ok=True)`.
With `exist_ok=True` these succeed whether or not the directory already
exists. -/
def mkdirEvents (a : Args) : List Event :=
  [Event.mkdir a.project_dir true true,
   Event.mkdir (sparse_dir a) false true,
   Event.mkdir (dense_dir a) false true]

/-- Error policy of `run_command` (lines 40-51) applied after the
invocation attempt: on exit code 0 the continuation runs; a non-zero
exit code `c` raises `CalledProcessError` and the script calls
`sys.exit(c)`; a missing executable raises `FileNotFoundError` and the
script calls `sys.exit(1)`.  The caller records the invocation event
itself. -/
def afterRun (r : RunResult) (k : List Event × Int) : List Event × Int :=
  match r with
  | .notFound => ([], 1)
  | .exited c => if c = 0 then k else ([], c)

/-- Matches of `dense_masks_dir.glob("*." + mask_ext)` (line 222). -/
def dense_mask_matches (a : Args) (w : World) : List EntryInfo :=
  w.denseMasksEntries.filter (fun e => globMatch e.name a.mask_ext)

/-- Copy loop of lines 226-227: `shutil.copy2` of each glob match into
the dense mask folder, in listing order.  Copying a regular file
succeeds and keeps the original name; a match that is not a regular
file makes `copy2` raise (`IsADirectoryError` on POSIX), which is
unhandled, so the loop stops there and the interpreter exits with
status 1: the flag component is `false` in that case. -/
def copySteps : List EntryInfo → List Event × Bool
  | [] => ([], true)
  | e :: rest =>
    if e.isFile then
      let r := copySteps rest
      (Event.copyMask e.name :: r.1, r.2)
    else ([], false)

/-- Stage 5, Brush training and export (lines 239-273).  Skipped
entirely unless `run_brush == 1`; otherwise the binary lookup of
line 244 gates a `sys.exit(1)`, the export directory is created, and
the Brush command runs under `run_command`.  Falling off the end of
`main` is exit status 0. -/
def stage5 (a : Args) (w : World) : List Event × Int :=
  if a.run_brush = 1 then
    if w.brushFound then
      let t := afterRun w.brushResult ([], 0)
      (Event.mkdir (brush_export_dir a) true true ::
        Event.run (cmd_brush a) (brushEnv a) :: t.1, t.2)
    else ([], 1)
  else ([], 0)

/-- Stage 4b, optional dense-mask provisioning (lines 220-234): when a
dense masks directory is configured, exists, and the glob finds at
least one match, `brush_masks_path.mkdir(exist_ok=True)` runs and the
matches are copied; with no configured directory, a missing directory,
or no match, the step only logs and control falls through to
stage 5. -/
def stage4b (a : Args) (w : World) : List Event × Int :=
  match a.dense_masks_dir with
  | none => stage5 a w
  | some _ =>
    if w.denseMasksDirExists then
      let ms := dense_mask_matches a w
      if ms.isEmpty then stage5 a w
      else
        let r := copySteps ms
        if r.2 then
          let s := stage5 a w
          (Event.mkdir (brush_masks_path a) false true :: (r.1 ++ s.1), s.2)
        else (Event.mkdir (brush_masks_path a) false true :: r.1, 1)
    else stage5 a w

/-- Stage 4, `image_undistorter` (lines 194-213): runs the undistort
command; on success, `sys.exit(1)` unless both `dense/0/images` and
`dense/0/sparse` exist, then stage 4b. -/
def stage4 (a : Args) (w : World) : List Event × Int :=
  let t := afterRun w.undistortResult
    (if w.denseImagesExists && w.denseSparseExists then stage4b a w else ([], 1))
  (Event.run (cmd_undistort a) none :: t.1, t.2)

/-- Stage 3, `mapper` (lines 173-189): runs the mapper command; on
success, `sys.exit(1)` unless `sparse/0` exists, then stage 4. -/
def stage3 (a : Args) (w : World) : List Event × Int :=
  let t := afterRun w.mapperResult
    (if w.sparse0Exists then stage4 a w else ([], 1))
  (Event.run (cmd_mapper a) none :: t.1, t.2)

/-- Stage 2, `exhaustive_matcher` (lines 162-168). -/
def stage2 (a : Args) (w : World) : List Event × Int :=
  let t := afterRun w.matchResult (stage3 a w)
  (Event.run (cmd_match a) none :: t.1, t.2)

/-- Stage 1, `feature_extractor` (lines 145-157). -/
def stage1 (a : Args) (w : World) : List Event × Int :=
  let t := afterRun w.featureResult (stage2 a w)
  (Event.run (cmd_feature a w) none :: t.1, t.2)

/-- The whole run of `main` (lines 58-273): `sys.exit(1)` when the
images directory is missing (lines 102-104), otherwise the three
directory creations of the setup phase followed by the staged
pipeline. -/
def pipeline (a : Args) (w : World) : List Event × Int :=
  if w.imagesDirExists then
    (mkdirEvents a ++ (stage1 a w).1, (stage1 a w).2)
  else ([], 1)

/-- Exit status `run_command` hands to `sys.exit` for a failed
invocation: the child's own exit code after `CalledProcessError`, 1
after `FileNotFoundError`. -/
def exitFor : RunResult → Int
  | .exited c => c
  | .notFound => 1

/-- External-process invocations of a trace, in order. -/
def runEvents : List Event → List (List String)
  | [] => []
  | Event.run c _ :: rest => c :: runEvents rest
  | Event.mkdir _ _ _ :: rest => runEvents rest
  | Event.copyMask _ :: rest => runEvents rest

/-! ## Helper lemmas about traces -/

@[simp] lemma runEvents_nil : runEvents [] = [] := rfl

@[simp] lemma runEvents_cons_run (c : List String) (e : Option String) (l : List Event) :
    runEvents (Event.run c e :: l) = c :: runEvents l := rfl

@[simp] lemma runEvents_cons_mkdir (p : String) (b1 b2 : Bool) (l : List Event) :
    runEvents (Event.mkdir p b1 b2 :: l) = runEvents l := rfl

@[simp] lemma runEvents_cons_copy (n : String) (l : List Event) :
    runEvents (Event.copyMask n :: l) = runEvents l := rfl

@[simp] lemma runEvents_append (l1 l2 : List Event) :
    runEvents (l1 ++ l2) = runEvents l1 ++ runEvents l2 := by
  induction l1 with
  | nil => simp
  | cons e rest ih => cases e <;> simp [ih]

@[simp] lemma runEvents_mkdirEvents (a : Args) : runEvents (mkdirEvents a) = [] := rfl

lemma runEvents_copySteps (l : List EntryInfo) : runEvents (copySteps l).1 = [] := by
  induction l with
  | nil => rfl
  | cons e rest ih =>
    by_cases h : e.isFile = true
    · simp [copySteps, h, ih]
    · simp [copySteps, h]

lemma copySteps_all_files (l : List EntryInfo) (h : (copySteps l).2 = true) :
    (copySteps l).1 = l.map (fun e => Event.copyMask e.name) ∧
      ∀ e ∈ l, e.isFile = true := by
  induction l with
  | nil => simp [copySteps]
  | cons e rest ih =>
    by_cases hf : e.isFile = true
    · simp only [copySteps, hf, if_true] at h ⊢
      obtain ⟨h1, h2⟩ := ih h
      refine ⟨by simp [h1], ?_⟩
      intro x hx
      rcases List.mem_cons.mp hx with h | h
      · exact h ▸ hf
      · exact h2 x h
    · simp [copySteps, hf] at h

/-- Stage 4b neither adds nor removes process invocations and passes
stage 5's exit status through, provided the copy loop does not hit a
non-file match. -/
lemma stage4b_ok (a : Args) (w : World)
    (hok : (copySteps (dense_mask_matches a w)).2 = true) :
    runEvents (stage4b a w).1 = runEvents (stage5 a w).1 ∧
      (stage4b a w).2 = (stage5 a w).2 := by
  rcases hd : a.dense_masks_dir with _ | d
  · simp [stage4b, hd]
  · by_cases he : w.denseMasksDirExists = true
    · by_cases hm : (dense_mask_matches a w).isEmpty = true
      · simp [stage4b, hd, he, hm]
      · simp [stage4b, hd, he, hm, hok, runEvents_copySteps]
    · simp [Bool.not_eq_true] at he
      simp [stage4b, hd, he]

/-- A zero exit status of stage 4b implies the copy loop did not abort
and stage 5 also reported zero. -/
lemma stage4b_exit_zero (a : Args) (w : World) (h : (stage4b a w).2 = 0) :
    (stage5 a w).2 = 0 ∧
      runEvents (stage4b a w).1 = runEvents (stage5 a w).1 := by
  rcases hd : a.dense_masks_dir with _ | d
  · simp [stage4b, hd] at h ⊢; exact h
  · by_cases he : w.denseMasksDirExists = true
    · by_cases hm : (dense_mask_matches a w).isEmpty = true
      · simp [stage4b, hd, he, hm] at h ⊢; exact h
      · by_cases hc : (copySteps (dense_mask_matches a w)).2 = true
        · simp [stage4b, hd, he, hm, hc, runEvents_copySteps] at h ⊢; exact h
        · simp [stage4b, hd, he, hm, hc] at h
    · simp [Bool.not_eq_true] at he
      simp [stage4b, hd, he] at h ⊢; exact h

/-- A zero exit status of stage 5 with Brush enabled means the binary
was found and the Brush child exited 0; its trace then holds exactly
the Brush invocation. -/
lemma stage5_exit_zero (a : Args) (w : World) (hb : a.run_brush = 1)
    (h : (stage5 a w).2 = 0) :
    w.brushFound = true ∧ w.brushResult = .exited 0 ∧
      runEvents (stage5 a w).1 = [cmd_brush a] := by
  unfold stage5 at h ⊢
  by_cases hf : w.brushFound = true
  · rcases hr : w.brushResult with c | _
    · by_cases hc : c = 0
      · subst hc
        simp [hb, hf, hr, afterRun]
      · simp [hb, hf, hr, afterRun, hc] at h
    · simp [hb, hf, hr, afterRun] at h
  · simp [Bool.not_eq_true] at hf
    simp [hb, hf] at h

/-! ## Concrete arguments and worlds for witnesses and counterexamples -/

/-- Sample parsed argument set used to instantiate the theorems. -/
def args0 : Args :=
  { project_dir := "proj", images_dir := "imgs",
    colmap_bin := "colmap", brush_bin := "brush",
    masks_dir := none, mask_ext := "png", dense_masks_dir := none,
    sfm_max_image_size := 3200, sift_max_num_features := 8192,
    undistort_max_image_size := 2400, camera_model := "OPENCV",
    single_camera := 1, min_num_matches := 15,
    refine_focal_length := 1, refine_extra_params := 1,
    refine_principal_point := 0, run_brush := 1,
    brush_total_steps := 30000, brush_max_splats := 3000000,
    brush_export_every := 5000, brush_eval_split_every := 8,
    brush_export_name := "export.ply", cubecl_default_device := "" }

/-- Sample environment in which every stage succeeds and every
inter-stage check passes. -/
def world0 : World :=
  { imagesDirExists := true, masksDirExists := false, masksEntries := [],
    denseMasksDirExists := false, denseMasksEntries := [],
    featureResult := .exited 0, matchResult := .exited 0,
    mapperResult := .exited 0, undistortResult := .exited 0,
    brushResult := .exited 0, sparse0Exists := true,
    denseImagesExists := true, denseSparseExists := true,
    brushFound := true }

/-- Sample argument set with Brush training disabled. -/
def argsNoBrush : Args := { args0 with run_brush := 0 }

/-! ## Forward and reverse lemmas about the staged run -/

/-- Hypothesis package: the images directory exists, stages 1-4 all
exited 0, and both inter-stage checks passed. -/
def stages14ok (w : World) : Prop :=
  w.imagesDirExists = true ∧ w.featureResult = .exited 0 ∧
    w.matchResult = .exited 0 ∧ w.mapperResult = .exited 0 ∧
    w.sparse0Exists = true ∧ w.undistortResult = .exited 0 ∧
    w.denseImagesExists = true ∧ w.denseSparseExists = true

/-- Under `stages14ok` the run is the three setup directory creations,
the four COLMAP invocations in order, and then whatever stage 4b and
stage 5 contribute. -/
lemma pipeline_through4 (a : Args) (w : World) (h : stages14ok w) :
    pipeline a w =
      (mkdirEvents a ++ Event.run (cmd_feature a w) none ::
        Event.run (cmd_match a) none :: Event.run (cmd_mapper a) none ::
        Event.run (cmd_undistort a) none :: (stage4b a w).1,
       (stage4b a w).2) := by
  obtain ⟨hi, hf, hm, hmp, hs, hu, hdi, hds⟩ := h
  simp [pipeline, stage1, stage2, stage3, stage4, afterRun,
    hi, hf, hm, hmp, hs, hu, hdi, hds]

lemma stage1_exit_zero (a : Args) (w : World) (h : (stage1 a w).2 = 0) :
    w.featureResult = .exited 0 ∧ (stage2 a w).2 = 0 ∧
      runEvents (stage1 a w).1 = cmd_feature a w :: runEvents (stage2 a w).1 := by
  rcases hr : w.featureResult with c | _
  · by_cases hc : c = 0
    · subst hc
      exact ⟨rfl, by simpa [stage1, afterRun, hr] using h,
        by simp [stage1, afterRun, hr]⟩
    · exfalso; simp [stage1, afterRun, hr, hc] at h
  · exfalso; simp [stage1, afterRun, hr] at h

lemma stage2_exit_zero (a : Args) (w : World) (h : (stage2 a w).2 = 0) :
    w.matchResult = .exited 0 ∧ (stage3 a w).2 = 0 ∧
      runEvents (stage2 a w).1 = cmd_match a :: runEvents (stage3 a w).1 := by
  rcases hr : w.matchResult with c | _
  · by_cases hc : c = 0
    · subst hc
      exact ⟨rfl, by simpa [stage2, afterRun, hr] using h,
        by simp [stage2, afterRun, hr]⟩
    · exfalso; simp [stage2, afterRun, hr, hc] at h
  · exfalso; simp [stage2, afterRun, hr] at h

lemma stage3_exit_zero (a : Args) (w : World) (h : (stage3 a w).2 = 0) :
    w.mapperResult = .exited 0 ∧ w.sparse0Exists = true ∧ (stage4 a w).2 = 0 ∧
      runEvents (stage3 a w).1 = cmd_mapper a :: runEvents (stage4 a w).1 := by
  rcases hr : w.mapperResult with c | _
  · by_cases hc : c = 0
    · subst hc
      by_cases hs : w.sparse0Exists = true
      · exact ⟨rfl, hs, by simpa [stage3, afterRun, hr, hs] using h,
          by simp [stage3, afterRun, hr, hs]⟩
      · exfalso
        simp [Bool.not_eq_true] at hs
        simp [stage3, afterRun, hr, hs] at h
    · exfalso; simp [stage3, afterRun, hr, hc] at h
  · exfalso; simp [stage3, afterRun, hr] at h

lemma stage4_exit_zero (a : Args) (w : World) (h : (stage4 a w).2 = 0) :
    w.undistortResult = .exited 0 ∧ w.denseImagesExists = true ∧
      w.denseSparseExists = true ∧ (stage4b a w).2 = 0 ∧
      runEvents (stage4 a w).1 = cmd_undistort a :: runEvents (stage4b a w).1 := by
  rcases hr : w.undistortResult with c | _
  · by_cases hc : c = 0
    · subst hc
      by_cases hg1 : w.denseImagesExists = true
      · by_cases hg2 : w.denseSparseExists = true
        · exact ⟨rfl, hg1, hg2, by simpa [stage4, afterRun, hr, hg1, hg2] using h,
            by simp [stage4, afterRun, hr, hg1, hg2]⟩
        · exfalso
          simp [Bool.not_eq_true] at hg2
          simp [stage4, afterRun, hr, hg1, hg2] at h
      · exfalso
        simp [Bool.not_eq_true] at hg1
        simp [stage4, afterRun, hr, hg1] at h
    · exfalso; simp [stage4, afterRun, hr, hc] at h
  · exfalso; simp [stage4, afterRun, hr] at h

/-- A run can only finish with status 0 if the images directory existed
and every stage reported status 0 down the chain. -/
lemma pipeline_exit_zero (a : Args) (w : World) (h : (pipeline a w).2 = 0) :
    w.imagesDirExists = true ∧ (stage1 a w).2 = 0 ∧
      runEvents (pipeline a w).1 = runEvents (stage1 a w).1 := by
  by_cases hi : w.imagesDirExists = true
  · exact ⟨hi, by simpa [pipeline, hi] using h, by simp [pipeline, hi]⟩
  · exfalso
    simp [Bool.not_eq_true] at hi
    simp [pipeline, hi] at h

/-! ## Claim C1 -/

/-- C1 counterexample: the claim says every run that reaches completion
performs five external invocations, but with `--run_brush 0` a run in
which all four COLMAP stages succeed and both inter-stage checks pass
completes with exit status 0 after only four external invocations. -/
theorem run_brush_zero_completes_with_four_invocations :
    (pipeline argsNoBrush world0).2 = 0 ∧
      runEvents (pipeline argsNoBrush world0).1 =
        [cmd_feature argsNoBrush world0, cmd_match argsNoBrush,
         cmd_mapper argsNoBrush, cmd_undistort argsNoBrush] ∧
      (runEvents (pipeline argsNoBrush world0).1).length ≠ 5 := by
  refine ⟨rfl, rfl, by decide⟩

/-- C1 (amended: with Brush training enabled, `run_brush = 1`): every
run that reaches completion (exit status 0) performed exactly the five
external invocations COLMAP feature_extractor, exhaustive_matcher,
mapper, image_undistorter and Brush, in that order; each invocation ran
only after the previous one exited 0, and the two filesystem gates the
script checks (`sparse/0` after the mapper, `dense/0/images` and
`dense/0/sparse` after the undistorter) held. -/
theorem brush_enabled_completion_runs_five_stages (a : Args) (w : World)
    (tr : List Event) (hb : a.run_brush = 1) (h : pipeline a w = (tr, 0)) :
    runEvents tr =
      [cmd_feature a w, cmd_match a, cmd_mapper a, cmd_undistort a, cmd_brush a] ∧
      w.featureResult = .exited 0 ∧ w.matchResult = .exited 0 ∧
      w.mapperResult = .exited 0 ∧ w.undistortResult = .exited 0 ∧
      w.brushResult = .exited 0 ∧ w.sparse0Exists = true ∧
      w.denseImagesExists = true ∧ w.denseSparseExists = true := by
  have h2 : (pipeline a w).2 = 0 := by rw [h]
  have h1 : (pipeline a w).1 = tr := by rw [h]
  obtain ⟨hi, hs1, htr0⟩ := pipeline_exit_zero a w h2
  obtain ⟨hf, hs2, htr1⟩ := stage1_exit_zero a w hs1
  obtain ⟨hm, hs3, htr2⟩ := stage2_exit_zero a w hs2
  obtain ⟨hmp, hsp, hs4, htr3⟩ := stage3_exit_zero a w hs3
  obtain ⟨hu, hdi, hds, hs4b, htr4⟩ := stage4_exit_zero a w hs4
  obtain ⟨hs5, htr4b⟩ := stage4b_exit_zero a w hs4b
  obtain ⟨hbf, hbr, htr5⟩ := stage5_exit_zero a w hb hs5
  refine ⟨?_, hf, hm, hmp, hu, hbr, hsp, hdi, hds⟩
  rw [← h1, htr0, htr1, htr2, htr3, htr4, htr4b, htr5]

/-- C1 witness: the amended completion theorem instantiated on a
concrete all-success run with Brush enabled. -/
theorem brush_enabled_completion_runs_five_stages_witness :
    args0.run_brush = 1 ∧
      pipeline args0 world0 = ((pipeline args0 world0).1, 0) ∧
      (runEvents (pipeline args0 world0).1 =
        [cmd_feature args0 world0, cmd_match args0, cmd_mapper args0,
         cmd_undistort args0, cmd_brush args0] ∧
        world0.featureResult = .exited 0 ∧ world0.matchResult = .exited 0 ∧
        world0.mapperResult = .exited 0 ∧ world0.undistortResult = .exited 0 ∧
        world0.brushResult = .exited 0 ∧ world0.sparse0Exists = true ∧
        world0.denseImagesExists = true ∧ world0.denseSparseExists = true) :=
  ⟨rfl, rfl,
    brush_enabled_completion_runs_five_stages args0 world0
      (pipeline args0 world0).1 rfl rfl⟩

/-! ## Claim C2 -/

/-- C2: for every external invocation, a non-zero child exit code makes
the whole process terminate at once with that same code, and a missing
executable makes it terminate with code 1; the trace shows the failing
command attempted exactly once and nothing after it (no retry), and a
run in which every step succeeds terminates with exit status 0.
(`exitFor` is the status `run_command` hands to `sys.exit`; the logging
of the failure is outside the model.) -/
theorem run_command_failure_policy (a : Args) (w : World) :
    (w.imagesDirExists = true → w.featureResult ≠ .exited 0 →
      (pipeline a w).2 = exitFor w.featureResult ∧
        runEvents (pipeline a w).1 = [cmd_feature a w]) ∧
    (w.imagesDirExists = true → w.featureResult = .exited 0 →
      w.matchResult ≠ .exited 0 →
      (pipeline a w).2 = exitFor w.matchResult ∧
        runEvents (pipeline a w).1 = [cmd_feature a w, cmd_match a]) ∧
    (w.imagesDirExists = true → w.featureResult = .exited 0 →
      w.matchResult = .exited 0 → w.mapperResult ≠ .exited 0 →
      (pipeline a w).2 = exitFor w.mapperResult ∧
        runEvents (pipeline a w).1 =
          [cmd_feature a w, cmd_match a, cmd_mapper a]) ∧
    (w.imagesDirExists = true → w.featureResult = .exited 0 →
      w.matchResult = .exited 0 → w.mapperResult = .exited 0 →
      w.sparse0Exists = true → w.undistortResult ≠ .exited 0 →
      (pipeline a w).2 = exitFor w.undistortResult ∧
        runEvents (pipeline a w).1 =
          [cmd_feature a w, cmd_match a, cmd_mapper a, cmd_undistort a]) ∧
    (stages14ok w → (copySteps (dense_mask_matches a w)).2 = true →
      a.run_brush = 1 → w.brushFound = true → w.brushResult ≠ .exited 0 →
      (pipeline a w).2 = exitFor w.brushResult ∧
        runEvents (pipeline a w).1 =
          [cmd_feature a w, cmd_match a, cmd_mapper a, cmd_undistort a,
           cmd_brush a]) ∧
    (stages14ok w → (copySteps (dense_mask_matches a w)).2 = true →
      (a.run_brush = 1 → w.brushFound = true ∧ w.brushResult = .exited 0) →
      (pipeline a w).2 = 0) := by
  refine ⟨?_, ?_, ?_, ?_, ?_, ?_⟩
  · intro hi hf
    rcases hr : w.featureResult with c | _
    · have hc : c ≠ 0 := by rintro rfl; exact hf hr
      simp [pipeline, stage1, afterRun, hi, hr, hc, exitFor]
    · simp [pipeline, stage1, afterRun, hi, hr, exitFor]
  · intro hi hf hm
    rcases hr : w.matchResult with c | _
    · have hc : c ≠ 0 := by rintro rfl; exact hm hr
      simp [pipeline, stage1, stage2, afterRun, hi, hf, hr, hc, exitFor]
    · simp [pipeline, stage1, stage2, afterRun, hi, hf, hr, exitFor]
  · intro hi hf hm hmp
    rcases hr : w.mapperResult with c | _
    · have hc : c ≠ 0 := by rintro rfl; exact hmp hr
      simp [pipeline, stage1, stage2, stage3, afterRun, hi, hf, hm, hr, hc,
        exitFor]
    · simp [pipeline, stage1, stage2, stage3, afterRun, hi, hf, hm, hr,
        exitFor]
  · intro hi hf hm hmp hs hu
    rcases hr : w.undistortResult with c | _
    · have hc : c ≠ 0 := by rintro rfl; exact hu hr
      simp [pipeline, stage1, stage2, stage3, stage4, afterRun, hi, hf, hm,
        hmp, hs, hr, hc, exitFor]
    · simp [pipeline, stage1, stage2, stage3, stage4, afterRun, hi, hf, hm,
        hmp, hs, hr, exitFor]
  · intro h14 hok hrb hbf hbr
    have hp := pipeline_through4 a w h14
    obtain ⟨h4bev, h4bsnd⟩ := stage4b_ok a w hok
    rcases hr : w.brushResult with c | _
    · have hc : c ≠ 0 := by rintro rfl; exact hbr hr
      constructor
      · simp [hp, h4bsnd, stage5, afterRun, hrb, hbf, hr, hc, exitFor]
      · simp [hp, h4bev, stage5, afterRun, hrb, hbf, hr, hc]
    · constructor
      · simp [hp, h4bsnd, stage5, afterRun, hrb, hbf, hr, exitFor]
      · simp [hp, h4bev, stage5, afterRun, hrb, hbf, hr]
  · intro h14 hok hb5
    have hp := pipeline_through4 a w h14
    obtain ⟨h4bev, h4bsnd⟩ := stage4b_ok a w hok
    by_cases hrb : a.run_brush = 1
    · obtain ⟨hbf, hbr⟩ := hb5 hrb
      simp [hp, h4bsnd, stage5, afterRun, hrb, hbf, hbr]
    · simp [hp, h4bsnd, stage5, hrb]

/-- Sample environment whose feature-extraction child exits with
code 3. -/
def worldFeatFail : World := { world0 with featureResult := .exited 3 }

/-- C2 witness: the failure-policy theorem instantiated on a run whose
first invocation exits with code 3; the whole process exits with
status 3 after exactly that one invocation. -/
theorem run_command_failure_policy_witness :
    worldFeatFail.imagesDirExists = true ∧
      worldFeatFail.featureResult ≠ RunResult.exited 0 ∧
      ((pipeline args0 worldFeatFail).2 = exitFor worldFeatFail.featureResult ∧
        runEvents (pipeline args0 worldFeatFail).1 =
          [cmd_feature args0 worldFeatFail]) :=
  ⟨rfl, by decide,
    (run_command_failure_policy args0 worldFeatFail).1 rfl (by decide)⟩

/-! ## Claim C3 -/

/-- C3: the feature-extraction argument list is the base list followed
by the pair `--ImageReader.mask_path <masks_dir>` exactly when a masks
directory is configured, it exists, and it holds at least one regular
file whose suffix matches the configured extension (the count predicate
`colmapMaskMatch`); in every other case it is exactly the base list,
with no masking arguments. -/
theorem feature_extractor_mask_args_iff (a : Args) (w : World) :
    (0 < mask_count a w ↔
      ∃ e ∈ w.masksEntries, colmapMaskMatch e a.mask_ext = true) ∧
    (∀ d, a.masks_dir = some d → w.masksDirExists = true →
      0 < mask_count a w →
      cmd_feature a w = cmd_feature_base a ++ ["--ImageReader.mask_path", d] ∧
        List.IsInfix ["--ImageReader.mask_path", d] (cmd_feature a w)) ∧
    ((a.masks_dir = none ∨ w.masksDirExists = false ∨ mask_count a w = 0) →
      cmd_feature a w = cmd_feature_base a) := by
  refine ⟨?_, ?_, ?_⟩
  · rw [mask_count, List.length_pos_iff_exists_mem]
    constructor
    · rintro ⟨e, he⟩
      rw [List.mem_filter] at he
      exact ⟨e, he.1, he.2⟩
    · rintro ⟨e, he1, he2⟩
      exact ⟨e, List.mem_filter.mpr ⟨he1, he2⟩⟩
  · intro d hd he hc
    refine ⟨by simp [cmd_feature, colmap_mask_args, hd, he, hc],
      cmd_feature_base a, [], ?_⟩
    simp [cmd_feature, colmap_mask_args, hd, he, hc]
  · rintro (hd | he | hc)
    · simp [cmd_feature, colmap_mask_args, hd]
    · rcases hd : a.masks_dir with _ | d
      · simp [cmd_feature, colmap_mask_args, hd]
      · simp [cmd_feature, colmap_mask_args, hd, he]
    · rcases hd : a.masks_dir with _ | d
      · simp [cmd_feature, colmap_mask_args, hd]
      · simp [cmd_feature, colmap_mask_args, hd, hc]

/-- Sample argument set with a COLMAP masks directory configured. -/
def argsMasks : Args := { args0 with masks_dir := some "masks" }

/-- Sample environment whose masks directory exists and holds one
matching mask file. -/
def worldMasks : World :=
  { world0 with masksDirExists := true,
                masksEntries := [{ name := "img1.png", isFile := true }] }

/-- C3 witness: with a configured, existing masks directory holding one
`.png` mask file, the feature-extraction command is the base list plus
the masking pair. -/
theorem feature_extractor_mask_args_iff_witness :
    argsMasks.masks_dir = some "masks" ∧
      worldMasks.masksDirExists = true ∧ 0 < mask_count argsMasks worldMasks ∧
      (cmd_feature argsMasks worldMasks =
        cmd_feature_base argsMasks ++ ["--ImageReader.mask_path", "masks"] ∧
        List.IsInfix ["--ImageReader.mask_path", "masks"]
          (cmd_feature argsMasks worldMasks)) :=
  ⟨rfl, rfl, by decide,
    (feature_extractor_mask_args_iff argsMasks worldMasks).2.1 "masks" rfl rfl
      (by decide)⟩

/-! ## Claim C4 -/

/-- C4: after the mapper invocation, if `sparse/0` does not exist the
process exits with status 1 before the undistorter runs; after the
undistorter invocation, if `dense/0/images` or `dense/0/sparse` does
not exist the process exits with status 1 before any mask copying or
Brush step.  Both conclusions give the complete trace, so nothing runs
after the failed check. -/
theorem inter_stage_directory_checks (a : Args) (w : World) :
    (w.imagesDirExists = true → w.featureResult = .exited 0 →
      w.matchResult = .exited 0 → w.mapperResult = .exited 0 →
      w.sparse0Exists = false →
      pipeline a w =
        (mkdirEvents a ++ [Event.run (cmd_feature a w) none,
          Event.run (cmd_match a) none, Event.run (cmd_mapper a) none], 1)) ∧
    (w.imagesDirExists = true → w.featureResult = .exited 0 →
      w.matchResult = .exited 0 → w.mapperResult = .exited 0 →
      w.sparse0Exists = true → w.undistortResult = .exited 0 →
      (w.denseImagesExists = false ∨ w.denseSparseExists = false) →
      pipeline a w =
        (mkdirEvents a ++ [Event.run (cmd_feature a w) none,
          Event.run (cmd_match a) none, Event.run (cmd_mapper a) none,
          Event.run (cmd_undistort a) none], 1)) := by
  constructor
  · intro hi hf hm hmp hs
    simp [pipeline, stage1, stage2, stage3, afterRun, hi, hf, hm, hmp, hs]
  · intro hi hf hm hmp hs hu hg
    rcases hg with hg | hg <;>
      simp [pipeline, stage1, stage2, stage3, stage4, afterRun,
        hi, hf, hm, hmp, hs, hu, hg]

/-- Sample environment in which the mapper exits 0 but produces no
`sparse/0` directory. -/
def worldNoSparse0 : World := { world0 with sparse0Exists := false }

/-- C4 witness: the post-mapper check instantiated on a run whose
mapper succeeds without creating `sparse/0`: the run stops with
status 1 after three invocations. -/
theorem inter_stage_directory_checks_witness :
    worldNoSparse0.sparse0Exists = false ∧
      pipeline args0 worldNoSparse0 =
        (mkdirEvents args0 ++ [Event.run (cmd_feature args0 worldNoSparse0) none,
          Event.run (cmd_match args0) none,
          Event.run (cmd_mapper args0) none], 1) :=
  ⟨rfl, (inter_stage_directory_checks args0 worldNoSparse0).1 rfl rfl rfl rfl rfl⟩

/-! ## Claim C5 -/

/-- C5: before any external invocation, a missing images directory
terminates the run with status 1 and an empty trace; otherwise the run
opens with the three setup `mkdir` calls — project directory with
`parents=True, exist_ok=True`, then the `sparse` and `dense`
subdirectories with `exist_ok=True`, so they also succeed when the
directories already exist — and the first external invocation
(feature extraction) follows at once. -/
theorem images_dir_check_and_setup (a : Args) (w : World) :
    (w.imagesDirExists = false → pipeline a w = ([], 1)) ∧
    (w.imagesDirExists = true →
      ∃ rest, (pipeline a w).1 =
        mkdirEvents a ++ Event.run (cmd_feature a w) none :: rest) := by
  constructor
  · intro hi
    simp [pipeline, hi]
  · intro hi
    exact ⟨(afterRun w.featureResult (stage2 a w)).1,
      by simp [pipeline, stage1, hi]⟩

/-- Sample environment with a missing images directory. -/
def worldNoImages : World := { world0 with imagesDirExists := false }

/-- C5 witness: with the images directory missing the run performs
nothing and exits with status 1; with it present the trace opens with
the setup directory creations followed by the feature-extraction
invocation. -/
theorem images_dir_check_and_setup_witness :
    (worldNoImages.imagesDirExists = false ∧
      pipeline args0 worldNoImages = ([], 1)) ∧
    (world0.imagesDirExists = true ∧
      ∃ rest, (pipeline args0 world0).1 =
        mkdirEvents args0 ++ Event.run (cmd_feature args0 world0) none :: rest) :=
  ⟨⟨rfl, (images_dir_check_and_setup args0 worldNoImages).1 rfl⟩,
    ⟨rfl, (images_dir_check_and_setup args0 world0).2 rfl⟩⟩

/-! ## Claim C6 -/

/-- Statement helper for the claim's condition: the directory listing
holds at least one regular file matching the glob pattern. -/
def hasMatchingFile (l : List EntryInfo) (ext : String) : Bool :=
  l.any (fun e => e.isFile && globMatch e.name ext)

/-- Sample argument set with a dense masks directory configured and
Brush training disabled. -/
def argsDense : Args :=
  { args0 with dense_masks_dir := some "dmasks", run_brush := 0 }

/-- Sample environment whose dense masks directory holds a single
subdirectory named `m.png` and no regular file. -/
def worldDenseSubdir : World :=
  { world0 with denseMasksDirExists := true,
                denseMasksEntries := [{ name := "m.png", isFile := false }] }

/-- C6 counterexample: the claim says that when the configured dense
masks directory contains no matching regular file, no masks directory
is created and the pipeline continues to stage 5.  But `Path.glob`
also matches a subdirectory named `m.png`, so with such an entry (and
no matching file at all) the code still creates `dense/0/masks` and
then aborts with status 1 when `shutil.copy2` raises on the
directory. -/
theorem dense_mask_dir_created_without_matching_file :
    hasMatchingFile worldDenseSubdir.denseMasksEntries argsDense.mask_ext = false ∧
      Event.mkdir (brush_masks_path argsDense) false true ∈
        (pipeline argsDense worldDenseSubdir).1 ∧
      (pipeline argsDense worldDenseSubdir).2 = 1 := by
  refine ⟨rfl, by decide, rfl⟩

/-- C6 (amended): between stage 4 and stage 5, when a dense masks
directory is configured, exists, and its glob `*.<mask_ext>` matches
at least one directory entry, the program creates `dense/0/masks` and
copies each matching entry under its original name — when every match
is a regular file this succeeds and the pipeline continues to stage 5;
a match that is not a regular file makes the copy raise, aborting the
run with status 1 after the masks directory was already created.  When
no directory is configured, the directory is missing, or no entry
matches, nothing is copied, no masks directory is created by this
step, and the pipeline continues to stage 5. -/
theorem dense_mask_copy_step (a : Args) (w : World) :
    (∀ d, a.dense_masks_dir = some d → w.denseMasksDirExists = true →
      dense_mask_matches a w ≠ [] →
      (copySteps (dense_mask_matches a w)).2 = true →
      stages14ok w →
      pipeline a w =
        (mkdirEvents a ++ Event.run (cmd_feature a w) none ::
          Event.run (cmd_match a) none :: Event.run (cmd_mapper a) none ::
          Event.run (cmd_undistort a) none ::
          Event.mkdir (brush_masks_path a) false true ::
          ((dense_mask_matches a w).map (fun e => Event.copyMask e.name) ++
            (stage5 a w).1),
         (stage5 a w).2)) ∧
    (stages14ok w →
      (a.dense_masks_dir = none ∨ w.denseMasksDirExists = false ∨
        dense_mask_matches a w = []) →
      pipeline a w =
        (mkdirEvents a ++ Event.run (cmd_feature a w) none ::
          Event.run (cmd_match a) none :: Event.run (cmd_mapper a) none ::
          Event.run (cmd_undistort a) none :: (stage5 a w).1,
         (stage5 a w).2)) ∧
    (∀ d, a.dense_masks_dir = some d → w.denseMasksDirExists = true →
      (copySteps (dense_mask_matches a w)).2 = false →
      stages14ok w →
      pipeline a w =
        (mkdirEvents a ++ Event.run (cmd_feature a w) none ::
          Event.run (cmd_match a) none :: Event.run (cmd_mapper a) none ::
          Event.run (cmd_undistort a) none ::
          Event.mkdir (brush_masks_path a) false true ::
          (copySteps (dense_mask_matches a w)).1,
         1)) := by
  refine ⟨?_, ?_, ?_⟩
  · intro d hd he hne hok h14
    have hp := pipeline_through4 a w h14
    have hm : (dense_mask_matches a w).isEmpty = false := by
      cases hq : (dense_mask_matches a w).isEmpty
      · rfl
      · exact absurd (List.isEmpty_iff.mp hq) hne
    obtain ⟨hmap, _⟩ := copySteps_all_files _ hok
    rw [hp]
    simp [stage4b, hd, he, hm, hok, hmap]
  · intro h14 hno
    have hp := pipeline_through4 a w h14
    rw [hp]
    rcases hno with hd | he | hg
    · simp [stage4b, hd]
    · rcases hdd : a.dense_masks_dir with _ | d
      · simp [stage4b, hdd]
      · simp [stage4b, hdd, he]
    · rcases hdd : a.dense_masks_dir with _ | d
      · simp [stage4b, hdd]
      · by_cases he : w.denseMasksDirExists = true
        · simp [stage4b, hdd, he, hg]
        · simp [Bool.not_eq_true] at he
          simp [stage4b, hdd, he]
  · intro d hd he hcf h14
    have hp := pipeline_through4 a w h14
    have hm : (dense_mask_matches a w).isEmpty = false := by
      cases hq : (dense_mask_matches a w).isEmpty
      · rfl
      · exfalso
        rw [List.isEmpty_iff.mp hq] at hcf
        simp [copySteps] at hcf
    rw [hp]
    simp [stage4b, hd, he, hm, hcf]

/-- Sample environment whose dense masks directory holds two regular
files, of which only `a.png` matches the case-sensitive glob. -/
def worldDenseFiles : World :=
  { world0 with denseMasksDirExists := true,
                denseMasksEntries := [{ name := "a.png", isFile := true },
                                      { name := "b.PNG", isFile := true }] }

/-- C6 witness: the amended copy-step theorem instantiated on a dense
masks directory holding one matching regular file. -/
theorem dense_mask_copy_step_witness :
    argsDense.dense_masks_dir = some "dmasks" ∧
      worldDenseFiles.denseMasksDirExists = true ∧
      dense_mask_matches argsDense worldDenseFiles ≠ [] ∧
      (copySteps (dense_mask_matches argsDense worldDenseFiles)).2 = true ∧
      stages14ok worldDenseFiles ∧
      pipeline argsDense worldDenseFiles =
        (mkdirEvents argsDense ++
          Event.run (cmd_feature argsDense worldDenseFiles) none ::
          Event.run (cmd_match argsDense) none ::
          Event.run (cmd_mapper argsDense) none ::
          Event.run (cmd_undistort argsDense) none ::
          Event.mkdir (brush_masks_path argsDense) false true ::
          ((dense_mask_matches argsDense worldDenseFiles).map
              (fun e => Event.copyMask e.name) ++
            (stage5 argsDense worldDenseFiles).1),
         (stage5 argsDense worldDenseFiles).2) :=
  ⟨rfl, rfl, by decide, rfl, ⟨rfl, rfl, rfl, rfl, rfl, rfl, rfl, rfl⟩,
    (dense_mask_copy_step argsDense worldDenseFiles).1 "dmasks" rfl rfl
      (by decide) rfl ⟨rfl, rfl, rfl, rfl, rfl, rfl, rfl, rfl⟩⟩

/-- Structural positional lookup in an argument list (statement
helper): the element at 0-based index `i`, if any. -/
def nth {α : Type} : List α → Nat → Option α
  | [], _ => none
  | x :: _, 0 => some x
  | _ :: xs, n + 1 => nth xs n

/-! ## Claim C7 -/

/-- C7: every tunable CLI parameter is forwarded verbatim: the camera
model, single-camera flag, SfM image-size cap and SIFT feature cap sit
behind their flags in the feature-extractor list; the minimum match
count and the three refine flags in the mapper list; the undistort
image-size cap in the undistorter list; the Brush step/splat/export
parameters and export name in the Brush list; and a non-empty
`cubecl_default_device` becomes the `CUBECL_DEFAULT_DEVICE` value of
the Brush invocation's environment. -/
theorem cli_parameters_forwarded (a : Args) (w : World) :
    (nth (cmd_feature a w) 6 = some "--ImageReader.single_camera" ∧
      nth (cmd_feature a w) 7 = some (toString a.single_camera)) ∧
    (nth (cmd_feature a w) 8 = some "--ImageReader.camera_model" ∧
      nth (cmd_feature a w) 9 = some a.camera_model) ∧
    (nth (cmd_feature a w) 12 = some "--SiftExtraction.max_image_size" ∧
      nth (cmd_feature a w) 13 = some (toString a.sfm_max_image_size)) ∧
    (nth (cmd_feature a w) 14 = some "--SiftExtraction.max_num_features" ∧
      nth (cmd_feature a w) 15 = some (toString a.sift_max_num_features)) ∧
    (nth (cmd_mapper a) 8 = some "--Mapper.min_num_matches" ∧
      nth (cmd_mapper a) 9 = some (toString a.min_num_matches)) ∧
    (nth (cmd_mapper a) 10 = some "--Mapper.ba_refine_focal_length" ∧
      nth (cmd_mapper a) 11 = some (toString a.refine_focal_length)) ∧
    (nth (cmd_mapper a) 12 = some "--Mapper.ba_refine_extra_params" ∧
      nth (cmd_mapper a) 13 = some (toString a.refine_extra_params)) ∧
    (nth (cmd_mapper a) 14 = some "--Mapper.ba_refine_principal_point" ∧
      nth (cmd_mapper a) 15 = some (toString a.refine_principal_point)) ∧
    (nth (cmd_undistort a) 10 = some "--max_image_size" ∧
      nth (cmd_undistort a) 11 = some (toString a.undistort_max_image_size)) ∧
    (nth (cmd_brush a) 2 = some "--total-steps" ∧
      nth (cmd_brush a) 3 = some (toString a.brush_total_steps)) ∧
    (nth (cmd_brush a) 6 = some "--max-splats" ∧
      nth (cmd_brush a) 7 = some (toString a.brush_max_splats)) ∧
    (nth (cmd_brush a) 8 = some "--eval-split-every" ∧
      nth (cmd_brush a) 9 = some (toString a.brush_eval_split_every)) ∧
    (nth (cmd_brush a) 10 = some "--export-every" ∧
      nth (cmd_brush a) 11 = some (toString a.brush_export_every)) ∧
    (nth (cmd_brush a) 14 = some "--export-name" ∧
      nth (cmd_brush a) 15 = some a.brush_export_name) ∧
    (a.cubecl_default_device ≠ "" →
      brushEnv a = some a.cubecl_default_device) ∧
    (a.run_brush = 1 → w.brushFound = true →
      nth (stage5 a w).1 1 = some (Event.run (cmd_brush a) (brushEnv a))) := by
  refine ⟨⟨rfl, rfl⟩, ⟨rfl, rfl⟩, ⟨rfl, rfl⟩, ⟨rfl, rfl⟩, ⟨rfl, rfl⟩,
    ⟨rfl, rfl⟩, ⟨rfl, rfl⟩, ⟨rfl, rfl⟩, ⟨rfl, rfl⟩, ⟨rfl, rfl⟩, ⟨rfl, rfl⟩,
    ⟨rfl, rfl⟩, ⟨rfl, rfl⟩, ⟨rfl, rfl⟩, ?_, ?_⟩
  · intro h
    simp [brushEnv, h]
  · intro hb hf
    simp [stage5, hb, hf, nth]

/-- Sample argument set with a GPU device selector configured. -/
def argsCube : Args := { args0 with cubecl_default_device := "0" }

/-- C7 witness: the forwarding theorem instantiated on an argument set
with `cubecl_default_device = "0"`, discharging the non-emptiness and
Brush-enabled hypotheses. -/
theorem cli_parameters_forwarded_witness :
    argsCube.cubecl_default_device ≠ "" ∧
      brushEnv argsCube = some argsCube.cubecl_default_device ∧
      nth (stage5 argsCube world0).1 1 =
        some (Event.run (cmd_brush argsCube) (brushEnv argsCube)) := by
  obtain ⟨-, -, -, -, -, -, -, -, -, -, -, -, -, -, henv, hev⟩ :=
    cli_parameters_forwarded argsCube world0
  exact ⟨by decide, henv (by decide), hev rfl rfl⟩

/-! ## Claim C8 -/

/-- Mask-file copy actions of a trace, in order (statement helper). -/
def copyEvents : List Event → List String
  | [] => []
  | Event.copyMask n :: rest => n :: copyEvents rest
  | _ :: rest => copyEvents rest

/-- Sample argument set pointing both mask options at the same
directory, Brush disabled. -/
def argsUpper : Args :=
  { args0 with masks_dir := some "masks", dense_masks_dir := some "masks",
               run_brush := 0 }

/-- Sample environment whose mask directory holds one regular file
named `m.PNG` (upper-case extension). -/
def worldUpper : World :=
  { world0 with
      masksDirExists := true,
      masksEntries := [{ name := "m.PNG", isFile := true }],
      denseMasksDirExists := true,
      denseMasksEntries := [{ name := "m.PNG", isFile := true }] }

/-- C8: mask-extension matching is asymmetric between the two mask
steps.  With configured extension `png`, the regular file `m.PNG`
satisfies the COLMAP count predicate (lowercased suffix comparison) but
not the case-sensitive glob of the dense-mask copy; on a directory
holding exactly that file the feature-extraction command gains the
masking pair while the dense-mask step copies nothing, and the run
still completes. -/
theorem mask_extension_matching_asymmetry :
    colmapMaskMatch { name := "m.PNG", isFile := true } "png" = true ∧
      globMatch "m.PNG" "png" = false ∧
      List.IsInfix ["--ImageReader.mask_path", "masks"]
        (cmd_feature argsUpper worldUpper) ∧
      dense_mask_matches argsUpper worldUpper = [] ∧
      copyEvents (pipeline argsUpper worldUpper).1 = [] ∧
      (pipeline argsUpper worldUpper).2 = 0 := by
  refine ⟨by decide, by decide, ⟨cmd_feature_base argsUpper, [], ?_⟩, rfl, rfl, rfl⟩
  rfl

/-! ## Claim C9 -/

/-- C9 counterexample: the claim says a `run_brush = 0` run that
passes the post-undistort checks completes with exit code 0 after
exactly four external invocations.  But the dense-mask copy step sits
between those checks and completion: with a dense masks directory
holding only a glob-matching subdirectory, both post-undistort checks
pass and the run performs exactly the four COLMAP invocations, yet it
exits with status 1 when `shutil.copy2` raises on the directory. -/
theorem run_brush_zero_four_invocations_but_exit_one :
    argsDense.run_brush = 0 ∧
      worldDenseSubdir.denseImagesExists = true ∧
      worldDenseSubdir.denseSparseExists = true ∧
      runEvents (pipeline argsDense worldDenseSubdir).1 =
        [cmd_feature argsDense worldDenseSubdir, cmd_match argsDense,
         cmd_mapper argsDense, cmd_undistort argsDense] ∧
      (pipeline argsDense worldDenseSubdir).2 = 1 :=
  ⟨rfl, rfl, rfl, rfl, rfl⟩

/-- C9 (amended: completion is additionally conditional on the
optional dense-mask copy step not aborting): with `run_brush = 0` the
entire Brush stage is skipped: stage 5 contributes no action at all —
no binary lookup outcome or Brush child outcome can influence it, no
`brush_exports` directory creation, no invocation — and it reports
status 0; consequently a run that passes the post-undistort checks and
whose optional dense-mask copying does not abort completes with exit
status 0 after exactly the four COLMAP invocations. -/
theorem run_brush_zero_skips_brush_stage (a : Args) (w : World)
    (h0 : a.run_brush = 0) :
    stage5 a w = ([], 0) ∧
    (stages14ok w → (copySteps (dense_mask_matches a w)).2 = true →
      (pipeline a w).2 = 0 ∧
      runEvents (pipeline a w).1 =
        [cmd_feature a w, cmd_match a, cmd_mapper a, cmd_undistort a]) := by
  have h5 : stage5 a w = ([], 0) := by simp [stage5, h0]
  refine ⟨h5, ?_⟩
  intro h14 hok
  have hp := pipeline_through4 a w h14
  obtain ⟨h4bev, h4bsnd⟩ := stage4b_ok a w hok
  constructor
  · simp [hp, h4bsnd, h5]
  · simp [hp, h4bev, h5]

/-- C9 witness: the amended skip theorem instantiated on an
all-success run with `run_brush = 0` and no dense masks configured, so
the copy step trivially does not abort. -/
theorem run_brush_zero_skips_brush_stage_witness :
    argsNoBrush.run_brush = 0 ∧
      stage5 argsNoBrush world0 = ([], 0) ∧
      ((pipeline argsNoBrush world0).2 = 0 ∧
        runEvents (pipeline argsNoBrush world0).1 =
          [cmd_feature argsNoBrush world0, cmd_match argsNoBrush,
           cmd_mapper argsNoBrush, cmd_undistort argsNoBrush]) :=
  ⟨rfl, (run_brush_zero_skips_brush_stage argsNoBrush world0 rfl).1,
    (run_brush_zero_skips_brush_stage argsNoBrush world0 rfl).2
      ⟨rfl, rfl, rfl, rfl, rfl, rfl, rfl, rfl⟩ rfl⟩

/-! ## Claim C10 -/

/-- C10: the Brush command couples parameters without independent
flags: the value after `--eval-every` always equals the value after
`--export-every` (both are `brush_export_every`), and the value after
`--max-resolution` always equals `undistort_max_image_size`. -/
theorem brush_command_coupled_parameters (a : Args) :
    nth (cmd_brush a) 10 = some "--export-every" ∧
      nth (cmd_brush a) 16 = some "--eval-every" ∧
      nth (cmd_brush a) 11 = nth (cmd_brush a) 17 ∧
      nth (cmd_brush a) 11 = some (toString a.brush_export_every) ∧
      nth (cmd_brush a) 4 = some "--max-resolution" ∧
      nth (cmd_brush a) 5 = some (toString a.undistort_max_image_size) :=
  ⟨rfl, rfl, rfl, rfl, rfl, rfl⟩
